/-
Verification of the TRMNL Home Assistant integration core:
the per-device sliding-window rate limiter (rate_limiter.py),
the client variants (clients/standard_trmnl.py, clients/byos_client.py),
the client factory (clients/trmnl_client.py) and the service dispatcher
(services.py), shallowly embedded in Lean 4.

Modelling conventions:
* Timestamps are integers (seconds); `datetime.now()` becomes an explicit
  parameter.  A Python function that calls `datetime.now()` k times takes k
  time parameters, in program order, so that re-sampling of the clock is
  visible in the embedding.
* `timedelta(hours=1)` is 3600 seconds.
* Mutation of `self` becomes state passing: a method returns its result
  together with the updated object.  The dispatcher's limiter is an alias
  into the manager's dict; this is modelled by writing the updated limiter
  back into the manager at every exit.
* HTTP traffic is modelled by an environment `http : HttpRequest → HttpResponse`
  and every client operation also returns the list of requests it issued.
  `aiohttp.ClientResponse.json()` raises `ContentTypeError` when the response
  content type is not `application/json`; this library behaviour is modelled
  by `respJson` returning an error in that case.  Creating or closing an
  aiohttp session issues no HTTP request.
-/
import Mathlib

namespace TRMNL

/-! ### rate_limiter.py -/

/-- State of `RateLimiter` (rate_limiter.py lines 9-29). -/
structure RateLimiter where
  device_id : String
  requests_per_hour : Int
  enabled : Bool
  request_times : List Int
  last_request_time : Option Int
deriving Repr, DecidableEq

/-- The list comprehension shared by `can_make_request` and
`get_remaining_requests`: keep `req_time > cutoff_time` where
`cutoff_time = now - timedelta(hours=1)`. -/
def pruneTimes (now : Int) (times : List Int) : List Int :=
  times.filter (fun t => now - 3600 < t)

/-- `RateLimiter.can_make_request` (lines 31-52).  Prunes `self.request_times`
(a mutation, hence the updated state in the result) and admits when the
retained count is below `requests_per_hour`; when `enabled` is false it
returns immediately without pruning. -/
def RateLimiter.can_make_request (rl : RateLimiter) (now : Int) :
    Bool × RateLimiter :=
  if !rl.enabled then
    (true, rl)
  else
    let rl' := { rl with request_times := pruneTimes now rl.request_times }
    if (rl'.request_times.length : Int) < rl'.requests_per_hour then
      (true, rl')
    else
      (false, rl')

/-- `RateLimiter.record_request` (lines 54-57).  The source samples the clock
twice: once for the appended entry and once for `last_request_time`. -/
def RateLimiter.record_request (rl : RateLimiter) (now₁ now₂ : Int) :
    RateLimiter :=
  { rl with
    request_times := rl.request_times ++ [now₁]
    last_request_time := some now₂ }

/-- `RateLimiter.get_remaining_requests` (lines 59-75): `-1` when disabled,
otherwise prune then `max(0, requests_per_hour - len(request_times))`. -/
def RateLimiter.get_remaining_requests (rl : RateLimiter) (now : Int) :
    Int × RateLimiter :=
  if !rl.enabled then
    (-1, rl)
  else
    let rl' := { rl with request_times := pruneTimes now rl.request_times }
    (max 0 (rl'.requests_per_hour - rl'.request_times.length), rl')

/-- Python `min` over a nonempty list. -/
def listMin (t : Int) (ts : List Int) : Int :=
  ts.foldl min t

/-- `RateLimiter.get_reset_time` (lines 77-87).  It does not consult the
clock and does not prune: it returns `min(self.request_times) + 1h`, or
`None` when the list is empty. -/
def RateLimiter.get_reset_time (rl : RateLimiter) : Option Int :=
  match rl.request_times with
  | [] => none
  | t :: ts => some (listMin t ts + 3600)

/-- `RateLimiter.get_wait_time` (lines 89-104).  `can_make_request` samples
the clock (`now₁`); when the request is refused the function samples the
clock again (`now₂`, line 100) to compute the seconds until the reset
deadline, floored at 0. -/
def RateLimiter.get_wait_time (rl : RateLimiter) (now₁ now₂ : Int) :
    Int × RateLimiter :=
  let res := rl.can_make_request now₁
  if res.1 then
    (0, res.2)
  else
    match res.2.get_reset_time with
    | some reset_time => (max 0 (reset_time - now₂), res.2)
    | none => (0, res.2)

/-- `RateLimiter.log_status` (lines 106-116): when enabled it calls
`get_remaining_requests`, whose pruning mutates the limiter. -/
def RateLimiter.log_status (rl : RateLimiter) (now : Int) : RateLimiter :=
  if !rl.enabled then rl else (rl.get_remaining_requests now).2

/-- State of `RateLimiterManager` (lines 119-124): a dict from device id to
limiter, modelled as an association list with unique keys. -/
structure RateLimiterManager where
  limiters : List (String × RateLimiter)
deriving Repr, DecidableEq

/-- Dict lookup `self.limiters[device_id]` / `device_id in self.limiters`. -/
def RateLimiterManager.find (m : RateLimiterManager) (device_id : String) :
    Option RateLimiter :=
  (m.limiters.find? (fun p => p.1 = device_id)).map Prod.snd

/-- Dict store through an aliased reference: replace the entry for
`device_id` in place. -/
def RateLimiterManager.store (m : RateLimiterManager) (device_id : String)
    (rl : RateLimiter) : RateLimiterManager :=
  ⟨m.limiters.map (fun p => if p.1 = device_id then (p.1, rl) else p)⟩

/-- `RateLimiterManager.get_limiter` (lines 126-148): create the limiter with
the given defaults when the key is absent, then return the stored one. -/
def RateLimiterManager.get_limiter (m : RateLimiterManager)
    (device_id : String) (requests_per_hour : Int) (enabled : Bool) :
    RateLimiter × RateLimiterManager :=
  match m.find device_id with
  | some rl => (rl, m)
  | none =>
      let rl : RateLimiter :=
        { device_id := device_id
          requests_per_hour := requests_per_hour
          enabled := enabled
          request_times := []
          last_request_time := none }
      (rl, ⟨m.limiters ++ [(device_id, rl)]⟩)

/-- `RateLimiterManager.update_limiter` (lines 150-167): mutate the stored
limiter's fields when present; no-op when the device has no limiter. -/
def RateLimiterManager.update_limiter (m : RateLimiterManager)
    (device_id : String) (requests_per_hour : Option Int)
    (enabled : Option Bool) : RateLimiterManager :=
  ⟨m.limiters.map (fun p =>
    if p.1 = device_id then
      (p.1,
        { p.2 with
          requests_per_hour := requests_per_hour.getD p.2.requests_per_hour
          enabled := enabled.getD p.2.enabled })
    else p)⟩

/-! ### HTTP model shared by the clients -/

/-- One HTTP request issued through the aiohttp session.  The JSON payload is
not claim-relevant and is omitted. -/
structure HttpRequest where
  method : String
  url : String
  headers : List (String × String)
deriving Repr, DecidableEq

/-- An HTTP response: status code, content type, and the parsed JSON body
(a flat string dict — the clients only ever call `.get` on it). -/
structure HttpResponse where
  status : Int
  content_type : String
  jsonBody : List (String × String)
deriving Repr, DecidableEq

/-- Python `dict.get(key, default)`. -/
def dictGet (d : List (String × String)) (key default : String) : String :=
  ((d.find? (fun p => p.1 = key)).map Prod.snd).getD default

/-- `aiohttp.ClientResponse.json()`: raises `ContentTypeError` when the
response content type is not `application/json`, otherwise returns the
parsed body. -/
def respJson (r : HttpResponse) : Except String (List (String × String)) :=
  if r.content_type = "application/json" then .ok r.jsonBody
  else .error ("Attempt to decode JSON with unexpected mimetype: " ++ r.content_type)

/-- `OperationResult`: the `{"success": ..., ...}` dicts returned by client
operations; only the claim-relevant keys are modelled. -/
structure OpResult where
  success : Bool
  error : Option String
deriving Repr, DecidableEq

/-- Python truthiness of an optional string (`if not self.plugin_uuid` /
`if self.api_key`): `None` and the empty string are falsy. -/
def pyFalsyStr : Option String → Bool
  | none => true
  | some s => s.isEmpty

/-! ### clients/standard_trmnl.py -/

/-- State of `StandardTRMNLClient`.  The constructor (lines 15-25) sets
`plugin_uuid = None`; the lazily created aiohttp session issues no HTTP
request and is not modelled. -/
structure StandardTRMNLClient where
  device_id : String
  api_key : String
  api_endpoint : String
  request_timeout : Int
  plugin_uuid : Option String
deriving Repr, DecidableEq

/-- `StandardTRMNLClient.test_connection` (lines 38-62): GET
`{endpoint}/api/current_screen` with the `ID` and `Access-Token` headers;
true exactly on status 200.  Returns the issued requests alongside. -/
def StandardTRMNLClient.test_connection (c : StandardTRMNLClient)
    (http : HttpRequest → HttpResponse) : Bool × List HttpRequest :=
  let req : HttpRequest :=
    { method := "GET"
      url := c.api_endpoint ++ "/api/current_screen"
      headers := [("ID", c.device_id), ("Access-Token", c.api_key)] }
  ((http req).status = 200, [req])

/-- `StandardTRMNLClient.send_image` (lines 64-111): precondition check on
`plugin_uuid` before any session use, then POST to the per-plugin endpoint
with no headers argument; `resp.json()` is called unguarded, and the
surrounding `except` turns its `ContentTypeError` into a failure result. -/
def StandardTRMNLClient.send_image (c : StandardTRMNLClient)
    (image_url : String) (refresh_rate : Option Int)
    (http : HttpRequest → HttpResponse) : OpResult × List HttpRequest :=
  let _ := (image_url, refresh_rate)
  if pyFalsyStr c.plugin_uuid then
    ({ success := false
       error := some "Plugin UUID not configured. Set plugin_uuid before sending images." },
     [])
  else
    let req : HttpRequest :=
      { method := "POST"
        url := c.api_endpoint ++ "/api/custom_plugins/" ++ c.plugin_uuid.getD ""
        headers := [] }
    let resp := http req
    match respJson resp with
    | .error e => ({ success := false, error := some e }, [req])
    | .ok response_data =>
        if resp.status = 200 then
          ({ success := true, error := none }, [req])
        else
          ({ success := false
             error := some ("TRMNL API error: " ++ toString response_data) },
           [req])

/-- `StandardTRMNLClient.send_merge_variables` (lines 113-153): same shape as
`send_image` — `plugin_uuid` precondition, header-less POST to the
per-plugin endpoint, unguarded `resp.json()`. -/
def StandardTRMNLClient.send_merge_variables (c : StandardTRMNLClient)
    (vars : List (String × String)) (merge_strategy : String)
    (http : HttpRequest → HttpResponse) : OpResult × List HttpRequest :=
  let _ := (vars, merge_strategy)
  if pyFalsyStr c.plugin_uuid then
    ({ success := false, error := some "Plugin UUID not configured." }, [])
  else
    let req : HttpRequest :=
      { method := "POST"
        url := c.api_endpoint ++ "/api/custom_plugins/" ++ c.plugin_uuid.getD ""
        headers := [] }
    let resp := http req
    match respJson resp with
    | .error e => ({ success := false, error := some e }, [req])
    | .ok response_data =>
        if resp.status = 200 then
          ({ success := true, error := none }, [req])
        else
          ({ success := false
             error := some ("TRMNL API error: " ++ toString response_data) },
           [req])

/-- `StandardTRMNLClient.get_device_status` (lines 155-186): GET
`{endpoint}/api/current_screen` with the `ID` and `Access-Token` headers. -/
def StandardTRMNLClient.get_device_status (c : StandardTRMNLClient)
    (http : HttpRequest → HttpResponse) : OpResult × List HttpRequest :=
  let req : HttpRequest :=
    { method := "GET"
      url := c.api_endpoint ++ "/api/current_screen"
      headers := [("ID", c.device_id), ("Access-Token", c.api_key)] }
  let resp := http req
  if resp.status = 200 then
    ({ success := true, error := none }, [req])
  else
    ({ success := false, error := some ("HTTP " ++ toString resp.status) }, [req])

/-! ### clients/byos_client.py -/

/-- State of `BYOSClient` (also the state of `TerminusClient`, which adds no
fields). -/
structure BYOSClient where
  device_id : String
  api_key : String
  api_endpoint : String
  request_timeout : Int
deriving Repr, DecidableEq

/-- `BYOSClient._get_headers` (lines 62-67): always the `ID` header, plus a
bearer `Authorization` header when `api_key` is truthy. -/
def BYOSClient.get_headers (c : BYOSClient) : List (String × String) :=
  if pyFalsyStr (some c.api_key) then
    [("ID", c.device_id)]
  else
    [("ID", c.device_id), ("Authorization", "Bearer " ++ c.api_key)]

/-- `BYOSClient.send_image` (lines 69-114): POST `{endpoint}/api/display`
with the device headers; the body is parsed only when the content type is
`application/json`, otherwise it is the empty dict; success on 200/201. -/
def BYOSClient.send_image (c : BYOSClient) (image_url : String)
    (refresh_rate : Option Int) (http : HttpRequest → HttpResponse) :
    OpResult × List HttpRequest :=
  let _ := (image_url, refresh_rate)
  let req : HttpRequest :=
    { method := "POST"
      url := c.api_endpoint ++ "/api/display"
      headers := c.get_headers }
  let resp := http req
  let response_data :=
    if resp.content_type = "application/json" then resp.jsonBody else []
  if resp.status = 200 ∨ resp.status = 201 then
    ({ success := true, error := none }, [req])
  else
    ({ success := false
       error := some (dictGet response_data "error" ("HTTP " ++ toString resp.status)) },
     [req])

/-- `BYOSClient.send_merge_variables` (lines 116-155): same endpoint and
guarded body parsing as `send_image`. -/
def BYOSClient.send_merge_variables (c : BYOSClient)
    (vars : List (String × String)) (merge_strategy : String)
    (http : HttpRequest → HttpResponse) : OpResult × List HttpRequest :=
  let _ := (vars, merge_strategy)
  let req : HttpRequest :=
    { method := "POST"
      url := c.api_endpoint ++ "/api/display"
      headers := c.get_headers }
  let resp := http req
  let response_data :=
    if resp.content_type = "application/json" then resp.jsonBody else []
  if resp.status = 200 ∨ resp.status = 201 then
    ({ success := true, error := none }, [req])
  else
    ({ success := false
       error := some (dictGet response_data "error" ("HTTP " ++ toString resp.status)) },
     [req])

/-- `TerminusClient.send_image` (lines 191-197) just delegates to
`BYOSClient.send_image`. -/
def TerminusClient.send_image (c : BYOSClient) (image_url : String)
    (refresh_rate : Option Int) (http : HttpRequest → HttpResponse) :
    OpResult × List HttpRequest :=
  BYOSClient.send_image c image_url refresh_rate http

/-! ### clients/trmnl_client.py and const.py -/

def IMPL_STANDARD : String := "standard"
def IMPL_TERMINUS : String := "terminus"
def IMPL_GENERIC_BYOS : String := "generic_byos"

/-- The client variants a factory call can produce. -/
inductive TRMNLClient where
  | standard (c : StandardTRMNLClient)
  | terminus (c : BYOSClient)
  | generic (c : BYOSClient)
deriving Repr, DecidableEq

/-- `TRMNLClientFactory.create_client` (trmnl_client.py lines 20-66): pure
mapping from the implementation-type tag to a freshly constructed variant
(no HTTP request is issued), `none` for unknown tags. -/
def TRMNLClientFactory.create_client (implementation_type : String)
    (device_id api_key api_endpoint : String) (request_timeout : Int) :
    Option TRMNLClient :=
  if implementation_type = IMPL_STANDARD then
    some (.standard
      { device_id := device_id, api_key := api_key
        api_endpoint := api_endpoint, request_timeout := request_timeout
        plugin_uuid := none })
  else if implementation_type = IMPL_TERMINUS then
    some (.terminus
      { device_id := device_id, api_key := api_key
        api_endpoint := api_endpoint, request_timeout := request_timeout })
  else if implementation_type = IMPL_GENERIC_BYOS then
    some (.generic
      { device_id := device_id, api_key := api_key
        api_endpoint := api_endpoint, request_timeout := request_timeout })
  else
    none

/-- Dispatch `client.send_image` over the variants. -/
def TRMNLClient.send_image (cl : TRMNLClient) (image_url : String)
    (refresh_rate : Option Int) (http : HttpRequest → HttpResponse) :
    OpResult × List HttpRequest :=
  match cl with
  | .standard c => c.send_image image_url refresh_rate http
  | .terminus c => TerminusClient.send_image c image_url refresh_rate http
  | .generic c => c.send_image image_url refresh_rate http

/-- Dispatch `client.send_merge_variables` over the variants. -/
def TRMNLClient.send_merge_variables (cl : TRMNLClient)
    (vars : List (String × String)) (merge_strategy : String)
    (http : HttpRequest → HttpResponse) : OpResult × List HttpRequest :=
  match cl with
  | .standard c => c.send_merge_variables vars merge_strategy http
  | .terminus c => BYOSClient.send_merge_variables c vars merge_strategy http
  | .generic c => c.send_merge_variables vars merge_strategy http

/-! ### services.py -/

/-- The `client_config` dict stored under the entry id in `hass.data[DOMAIN]`;
accessed with `.get`, so each key may be absent.  `api_key` is read with
default `""` and `api_endpoint` is forwarded to the factory (string-valued in
every configured entry). -/
structure ClientConfig where
  device_id : Option String
  implementation_type : Option String
  api_key : Option String
  api_endpoint : String
deriving Repr, DecidableEq

/-- Terminal outcome of one dispatcher invocation: `ok`, or the
`HomeAssistantError` raised (one constructor per raise site in
`handle_send_image` / `handle_send_merge_variables`). -/
inductive ServiceOutcome where
  | ok
  | errDeviceNotFound
  | errDeviceMismatch
  | errRateLimited (wait_seconds : Int)
  | errNoClient
  | errSendFailed (msg : Option String)
deriving Repr, DecidableEq

/-- Result of one dispatcher invocation: the outcome, the manager state after
the call, the HTTP requests issued, and whether `limiter.record_request()`
was called during the invocation. -/
structure DispatchResult where
  outcome : ServiceOutcome
  manager : RateLimiterManager
  trace : List HttpRequest
  recorded : Bool
deriving Repr, DecidableEq

/-- `handle_send_image` (services.py lines 42-101).  Clock samples in program
order: `nowA` for the admission check (`can_make_request`, line 68); on
refusal `get_wait_time` (line 69) samples `nowB` (its inner
`can_make_request`) and `nowC` (line 100 of rate_limiter.py); on success
`record_request` samples `nowD`/`nowE` and `log_status` samples `nowF`.
The limiter is an alias into the manager's dict, so its updated state is
written back at every exit. -/
def handle_send_image (client_config : Option ClientConfig)
    (device_id image_url : String) (refresh_rate : Option Int)
    (rate_limit : Int) (enable_rate_limiting : Bool)
    (mgr : RateLimiterManager) (http : HttpRequest → HttpResponse)
    (nowA nowB nowC nowD nowE nowF : Int) : DispatchResult :=
  match client_config with
  | none => ⟨.errDeviceNotFound, mgr, [], false⟩
  | some cfg =>
    if cfg.device_id ≠ some device_id then
      ⟨.errDeviceMismatch, mgr, [], false⟩
    else
      let gl := mgr.get_limiter device_id rate_limit enable_rate_limiting
      let mgr₁ := gl.2
      let cm := gl.1.can_make_request nowA
      if !cm.1 then
        let wt := cm.2.get_wait_time nowB nowC
        ⟨.errRateLimited wt.1, mgr₁.store device_id wt.2, [], false⟩
      else
        match TRMNLClientFactory.create_client
            (cfg.implementation_type.getD "") device_id
            (cfg.api_key.getD "") cfg.api_endpoint 30 with
        | none => ⟨.errNoClient, mgr₁.store device_id cm.2, [], false⟩
        | some client =>
          let res := client.send_image image_url refresh_rate http
          if !res.1.success then
            ⟨.errSendFailed res.1.error, mgr₁.store device_id cm.2, res.2, false⟩
          else
            let rl := (cm.2.record_request nowD nowE).log_status nowF
            ⟨.ok, mgr₁.store device_id rl, res.2, true⟩

/-- `handle_send_merge_variables` (services.py lines 103-164): identical
orchestration around `client.send_merge_variables`. -/
def handle_send_merge_variables (client_config : Option ClientConfig)
    (device_id : String) (vars : List (String × String))
    (merge_strategy : String) (rate_limit : Int) (enable_rate_limiting : Bool)
    (mgr : RateLimiterManager) (http : HttpRequest → HttpResponse)
    (nowA nowB nowC nowD nowE nowF : Int) : DispatchResult :=
  match client_config with
  | none => ⟨.errDeviceNotFound, mgr, [], false⟩
  | some cfg =>
    if cfg.device_id ≠ some device_id then
      ⟨.errDeviceMismatch, mgr, [], false⟩
    else
      let gl := mgr.get_limiter device_id rate_limit enable_rate_limiting
      let mgr₁ := gl.2
      let cm := gl.1.can_make_request nowA
      if !cm.1 then
        let wt := cm.2.get_wait_time nowB nowC
        ⟨.errRateLimited wt.1, mgr₁.store device_id wt.2, [], false⟩
      else
        match TRMNLClientFactory.create_client
            (cfg.implementation_type.getD "") device_id
            (cfg.api_key.getD "") cfg.api_endpoint 30 with
        | none => ⟨.errNoClient, mgr₁.store device_id cm.2, [], false⟩
        | some client =>
          let res := client.send_merge_variables vars merge_strategy http
          if !res.1.success then
            ⟨.errSendFailed res.1.error, mgr₁.store device_id cm.2, res.2, false⟩
          else
            let rl := (cm.2.record_request nowD nowE).log_status nowF
            ⟨.ok, mgr₁.store device_id rl, res.2, true⟩

/-! ### Spec-side definition used for the refinement comparison of C2 -/

/-- Modelled from the spec (§4.1 `resetDeadline()`): prune the history with
respect to the current time, then return the oldest retained timestamp plus
one hour, or none when the pruned history is empty.  Stated from the spec's
words, for comparison with `RateLimiter.get_reset_time`. -/
def resetDeadlineSpec (rl : RateLimiter) (now : Int) : Option Int :=
  match pruneTimes now rl.request_times with
  | [] => none
  | t :: ts => some (listMin t ts + 3600)

/-! ### Helper lemmas -/

lemma mem_pruneTimes {now x : Int} {ts : List Int} (h : x ∈ pruneTimes now ts) :
    now - 3600 < x := by
  have := List.of_mem_filter h
  exact of_decide_eq_true this

lemma listMin_lower_bound {c : Int} (t : Int) (ts : List Int) (ht : c < t)
    (hts : ∀ x ∈ ts, c < x) : c < listMin t ts := by
  induction ts generalizing t with
  | nil => simpa [listMin] using ht
  | cons x xs ih =>
      have hx : c < x := hts x (by simp)
      have : ∀ y ∈ xs, c < y := fun y hy => hts y (by simp [hy])
      simpa [listMin] using ih (min t x) (lt_min ht hx) this

/-- With rate limiting enabled, `can_make_request` leaves the limiter with
its history pruned relative to the sampled clock, all other fields intact. -/
lemma can_make_request_snd {rl : RateLimiter} (now : Int)
    (h : rl.enabled = true) :
    (rl.can_make_request now).2 =
      { rl with request_times := pruneTimes now rl.request_times } := by
  unfold RateLimiter.can_make_request
  rw [h]
  simp only [Bool.not_true, Bool.false_eq_true, if_false]
  split <;> rfl

lemma get_reset_time_update (rl : RateLimiter) (ts : List Int) :
    ({ rl with request_times := ts } : RateLimiter).get_reset_time =
      match ts with
      | [] => none
      | x :: xs => some (listMin x xs + 3600) := by
  cases ts <;> rfl

/-- With rate limiting enabled, `get_remaining_requests` prunes the history
the same way. -/
lemma get_remaining_requests_snd {rl : RateLimiter} (now : Int)
    (h : rl.enabled = true) :
    (rl.get_remaining_requests now).2 =
      { rl with request_times := pruneTimes now rl.request_times } := by
  unfold RateLimiter.get_remaining_requests
  rw [h]
  simp

/-! ### C10 -/

/-- The zero-limit limiter of claim C10: enabled, `requests_per_hour = 0`,
empty history. -/
def zeroLimiter : RateLimiter :=
  { device_id := "device"
    requests_per_hour := 0
    enabled := true
    request_times := []
    last_request_time := none }

/-- C10: with `enabled = true`, `requests_per_hour = 0` and an empty history,
`can_make_request` refuses admission at every time, `get_wait_time` reports a
wait of 0 for every pair of clock samples, and `get_reset_time` is `none` on
the empty history — so a reported wait of 0 does not imply a later retry is
admitted. -/
theorem C10_zero_limit_refuses_with_zero_wait :
    (∀ now : Int, (zeroLimiter.can_make_request now).1 = false) ∧
    (∀ now₁ now₂ : Int, (zeroLimiter.get_wait_time now₁ now₂).1 = 0) ∧
    zeroLimiter.get_reset_time = none := by
  refine ⟨fun now => ?_, fun now₁ now₂ => ?_, rfl⟩
  · simp [zeroLimiter, RateLimiter.can_make_request, pruneTimes]
  · simp [zeroLimiter, RateLimiter.get_wait_time, RateLimiter.can_make_request,
      RateLimiter.get_reset_time, pruneTimes]

/-! ### C2 -/

/-- The limiter refuting C2: one history entry at time 0, queried at time
10000 (the entry is then more than one hour old). -/
def c2Limiter : RateLimiter :=
  { device_id := "device"
    requests_per_hour := 12
    enabled := true
    request_times := [0]
    last_request_time := none }

/-- C2 counterexample: `get_reset_time` performs no pruning.  At current time
10000 the only history entry (time 0) is more than one hour old, so the
spec-side `resetDeadlineSpec` (prune first) returns `none`, yet the code
returns `some 3600` — a deadline determined by a stale timestamp (and already
in the past). -/
theorem C2_counterexample :
    c2Limiter.get_reset_time = some 3600 ∧
    resetDeadlineSpec c2Limiter 10000 = none ∧
    pruneTimes 10000 c2Limiter.request_times = [] := by
  refine ⟨rfl, rfl, rfl⟩

/-- C2 amended: `get_reset_time` itself never prunes; but once the history
has been pruned by the admission check of the same logical operation (as
`get_wait_time` and the dispatcher do), the returned deadline is strictly
later than the sampled now — no timestamp more than one hour old can
determine it — and it is `none` when the pruned history is empty. -/
theorem C2_reset_time_after_prune (rl : RateLimiter) (now : Int)
    (h : rl.enabled = true) :
    (∀ t : Int, ((rl.can_make_request now).2).get_reset_time = some t →
        now < t) ∧
    (pruneTimes now rl.request_times = [] →
        ((rl.can_make_request now).2).get_reset_time = none) := by
  rw [can_make_request_snd now h]
  constructor
  · intro t ht
    rw [get_reset_time_update] at ht
    cases hp : pruneTimes now rl.request_times with
    | nil => rw [hp] at ht; simp at ht
    | cons x xs =>
        rw [hp] at ht
        simp only [Option.some.injEq] at ht
        have hx : now - 3600 < x := mem_pruneTimes (hp ▸ List.mem_cons_self x xs)
        have hxs : ∀ y ∈ xs, now - 3600 < y := fun y hy =>
          @mem_pruneTimes now y rl.request_times (hp ▸ List.mem_cons_of_mem x hy)
        have := listMin_lower_bound x xs hx hxs
        omega
  · intro hp
    rw [get_reset_time_update, hp]

/-- Witness for C2's amended theorem: a limiter with one in-window entry at
time 5000, queried at time 6000, yields the future deadline 8600. -/
theorem C2_reset_time_after_prune_witness :
    (6000 : Int) < 8600 :=
  (C2_reset_time_after_prune
    { device_id := "device", requests_per_hour := 12, enabled := true
      request_times := [5000], last_request_time := none } 6000 rfl).1 8600 rfl

/-! ### C7 -/

/-- The limiter exhibiting the clock re-sampling of `get_wait_time`: limit 1,
one in-window entry at time 0. -/
def c7Limiter : RateLimiter :=
  { device_id := "device"
    requests_per_hour := 1
    enabled := true
    request_times := [0]
    last_request_time := none }

/-- C7 counterexample: `get_wait_time` re-samples the clock between the
admission check and the wait computation.  Holding the first sample at 100
and moving only the second sample from 100 to 200 changes the reported wait
from 3500 to 3400 — the two comparisons inside one logical operation do not
share a single "now". -/
theorem C7_counterexample :
    (c7Limiter.get_wait_time 100 100).1 = 3500 ∧
    (c7Limiter.get_wait_time 100 200).1 = 3400 ∧
    (c7Limiter.get_wait_time 100 100).1 ≠ (c7Limiter.get_wait_time 100 200).1 := by
  refine ⟨rfl, rfl, by decide⟩

/-- C7 amended: given the same sampled now, `can_make_request` and
`get_remaining_requests` prune identically and deterministically, leaving
identical limiter states; but `get_reset_time` performs no pruning at all,
and `get_wait_time` draws a fresh clock sample for the wait computation, so
its admission check and its deadline arithmetic can disagree about "now". -/
theorem C7_pruning_agreement (rl : RateLimiter) (now : Int)
    (h : rl.enabled = true) :
    (rl.can_make_request now).2 = (rl.get_remaining_requests now).2 ∧
    (rl.can_make_request now).2.request_times = pruneTimes now rl.request_times ∧
    (c7Limiter.get_wait_time 100 100).1 ≠ (c7Limiter.get_wait_time 100 200).1 := by
  rw [can_make_request_snd now h, get_remaining_requests_snd now h]
  exact ⟨rfl, rfl, by decide⟩

/-- Witness for C7's amended theorem at a concrete limiter and time. -/
theorem C7_pruning_agreement_witness :
    (c7Limiter.can_make_request 50).2 = (c7Limiter.get_remaining_requests 50).2 :=
  (C7_pruning_agreement c7Limiter 50 rfl).1

/-! ### C6 -/

/-- Empty manager for the C6 scenario. -/
def c6mgrA : RateLimiterManager := ⟨[]⟩

/-- The limiter created for device `"dev"` with defaults 12 / enabled. -/
def c6limCreated : RateLimiter := (c6mgrA.get_limiter "dev" 12 true).1

/-- Five requests recorded (at times 100..104, within the hour of time 200). -/
def c6limRecorded : RateLimiter :=
  ((((c6limCreated.record_request 100 100).record_request 101 101).record_request
      102 102).record_request 103 103).record_request 104 104

/-- The manager after the five recordings and after `update_limiter` lowers
the limit from 12 to 3. -/
def c6mgrB : RateLimiterManager :=
  (((c6mgrA.get_limiter "dev" 12 true).2.store "dev"
      c6limRecorded).update_limiter "dev" (some 3) none)

/-- The limiter state reached through the manager API. -/
def c6limFinal : RateLimiter := (c6mgrB.get_limiter "dev" 12 true).1

/-- C6 counterexample: after `update_limiter` lowers `requests_per_hour` to 3
while 5 in-window entries are in the history, `get_remaining_requests` is 0
(clamped by `max`), so remaining plus the pruned-history length is 5, not the
limit 3 — the claimed sum identity fails on this reachable state. -/
theorem C6_counterexample :
    c6limFinal.enabled = true ∧
    c6limFinal.requests_per_hour = 3 ∧
    (pruneTimes 200 c6limFinal.request_times).length = 5 ∧
    (c6limFinal.get_remaining_requests 200).1 = 0 ∧
    (c6limFinal.get_remaining_requests 200).1 +
      ((c6limFinal.get_remaining_requests 200).2.request_times.length : Int) ≠
        c6limFinal.requests_per_hour := by
  refine ⟨rfl, rfl, rfl, rfl, by decide⟩

/-- C6 amended: with `enabled = true` and a nonnegative limit,
`get_remaining_requests` is always in `[0, requests_per_hour]` and is at
least `requests_per_hour` minus the pruned-history length; the exact sum
identity `remaining + |pruned history| = requests_per_hour` holds whenever
the pruned history has not outgrown the (possibly lowered) limit. -/
theorem C6_remaining_quota_bounds (rl : RateLimiter) (now : Int)
    (he : rl.enabled = true) (hpos : 0 ≤ rl.requests_per_hour) :
    0 ≤ (rl.get_remaining_requests now).1 ∧
    (rl.get_remaining_requests now).1 ≤ rl.requests_per_hour ∧
    rl.requests_per_hour ≤ (rl.get_remaining_requests now).1 +
      ((rl.get_remaining_requests now).2.request_times.length : Int) ∧
    (((rl.get_remaining_requests now).2.request_times.length : Int) ≤
        rl.requests_per_hour →
      (rl.get_remaining_requests now).1 +
        ((rl.get_remaining_requests now).2.request_times.length : Int) =
          rl.requests_per_hour) := by
  have h1 : (rl.get_remaining_requests now).1 =
      max 0 (rl.requests_per_hour -
        ((pruneTimes now rl.request_times).length : Int)) := by
    unfold RateLimiter.get_remaining_requests
    rw [he]
    simp
  have h2 : (rl.get_remaining_requests now).2.request_times =
      pruneTimes now rl.request_times := by
    rw [get_remaining_requests_snd now he]
  rw [h1, h2]
  omega

/-- Witness for C6's amended theorem: limit 3, two in-window entries,
remaining 1, and `1 + 2 = 3`. -/
theorem C6_remaining_quota_bounds_witness :
    (RateLimiter.get_remaining_requests
        { device_id := "device-w", requests_per_hour := 3, enabled := true
          request_times := [10, 20], last_request_time := none } 30).1 +
      ((RateLimiter.get_remaining_requests
        { device_id := "device-w", requests_per_hour := 3, enabled := true
          request_times := [10, 20], last_request_time := none } 30).2.request_times.length : Int) = 3 :=
  (C6_remaining_quota_bounds
    { device_id := "device-w", requests_per_hour := 3, enabled := true
      request_times := [10, 20], last_request_time := none } 30 rfl
    (by decide)).2.2.2 (by decide)

/-! ### C8 -/

lemma get_limiter_of_find_some {m : RateLimiterManager} {id : String}
    {rl : RateLimiter} (r : Int) (e : Bool) (h : m.find id = some rl) :
    m.get_limiter id r e = (rl, m) := by
  unfold RateLimiterManager.get_limiter
  rw [h]

/-- After any `get_limiter` call the manager holds an entry for the device,
and it is exactly the limiter that was returned. -/
lemma find_get_limiter_snd (m : RateLimiterManager) (id : String) (r : Int)
    (e : Bool) :
    ((m.get_limiter id r e).2).find id = some ((m.get_limiter id r e).1) := by
  unfold RateLimiterManager.get_limiter
  cases hf : m.find id with
  | some rl => simpa using hf
  | none =>
      have hnone : m.limiters.find? (fun p => p.1 = id) = none := by
        unfold RateLimiterManager.find at hf
        cases hq : m.limiters.find? (fun p => p.1 = id) with
        | none => rfl
        | some q => rw [hq] at hf; cases hf
      simp only [RateLimiterManager.find, List.find?_append, hnone]
      simp [List.find?]

/-- C8: calling `get_limiter` twice with the same device id returns the very
limiter stored by the first call and leaves the manager unchanged — the
second call's defaults (`r₂`, `e₂`), even when different, have no effect. -/
theorem C8_get_limiter_idempotent_keying (m : RateLimiterManager)
    (id : String) (r₁ r₂ : Int) (e₁ e₂ : Bool) :
    ((m.get_limiter id r₁ e₁).2).get_limiter id r₂ e₂ =
      ((m.get_limiter id r₁ e₁).1, (m.get_limiter id r₁ e₁).2) :=
  get_limiter_of_find_some r₂ e₂ (find_get_limiter_snd m id r₁ e₁)

/-! ### Client trace helper lemmas -/

/-- The request `BYOSClient.send_image` / `send_merge_variables` issue. -/
def byosDisplayReq (c : BYOSClient) : HttpRequest :=
  { method := "POST"
    url := c.api_endpoint ++ "/api/display"
    headers := c.get_headers }

/-- The request the hosted push operations issue once the plugin UUID check
passes. -/
def standardPluginReq (c : StandardTRMNLClient) : HttpRequest :=
  { method := "POST"
    url := c.api_endpoint ++ "/api/custom_plugins/" ++ c.plugin_uuid.getD ""
    headers := [] }

/-- The request the hosted `test_connection` / `get_device_status` issue. -/
def standardScreenReq (c : StandardTRMNLClient) : HttpRequest :=
  { method := "GET"
    url := c.api_endpoint ++ "/api/current_screen"
    headers := [("ID", c.device_id), ("Access-Token", c.api_key)] }

lemma byos_send_image_trace (c : BYOSClient) (url : String) (rr : Option Int)
    (http : HttpRequest → HttpResponse) :
    (c.send_image url rr http).2 = [byosDisplayReq c] := by
  unfold BYOSClient.send_image
  dsimp only
  split <;> rfl

lemma byos_send_merge_variables_trace (c : BYOSClient)
    (vars : List (String × String)) (ms : String)
    (http : HttpRequest → HttpResponse) :
    (c.send_merge_variables vars ms http).2 = [byosDisplayReq c] := by
  unfold BYOSClient.send_merge_variables
  dsimp only
  split <;> rfl

lemma standard_send_image_trace (c : StandardTRMNLClient) (url : String)
    (rr : Option Int) (http : HttpRequest → HttpResponse)
    (h : pyFalsyStr c.plugin_uuid = false) :
    (c.send_image url rr http).2 = [standardPluginReq c] := by
  unfold StandardTRMNLClient.send_image
  rw [h]
  simp only [Bool.false_eq_true, if_false]
  split <;> first | rfl | split <;> rfl

lemma standard_send_merge_variables_trace (c : StandardTRMNLClient)
    (vars : List (String × String)) (ms : String)
    (http : HttpRequest → HttpResponse)
    (h : pyFalsyStr c.plugin_uuid = false) :
    (c.send_merge_variables vars ms http).2 = [standardPluginReq c] := by
  unfold StandardTRMNLClient.send_merge_variables
  rw [h]
  simp only [Bool.false_eq_true, if_false]
  split <;> first | rfl | split <;> rfl

lemma standard_test_connection_trace (c : StandardTRMNLClient)
    (http : HttpRequest → HttpResponse) :
    (c.test_connection http).2 = [standardScreenReq c] := rfl

lemma standard_get_device_status_trace (c : StandardTRMNLClient)
    (http : HttpRequest → HttpResponse) :
    (c.get_device_status http).2 = [standardScreenReq c] := by
  unfold StandardTRMNLClient.get_device_status
  dsimp only
  split <;> rfl

/-! ### C3 -/

/-- C3: the hosted client with no plugin UUID set fails both push operations
client-side — `success = false`, the precondition error message, and an empty
HTTP trace (the check precedes any session use). -/
theorem C3_hosted_push_requires_plugin_uuid (c : StandardTRMNLClient)
    (image_url : String) (refresh_rate : Option Int)
    (vars : List (String × String)) (merge_strategy : String)
    (http : HttpRequest → HttpResponse) (h : c.plugin_uuid = none) :
    (c.send_image image_url refresh_rate http).1.success = false ∧
    (c.send_image image_url refresh_rate http).1.error =
      some "Plugin UUID not configured. Set plugin_uuid before sending images." ∧
    (c.send_image image_url refresh_rate http).2 = [] ∧
    (c.send_merge_variables vars merge_strategy http).1.success = false ∧
    (c.send_merge_variables vars merge_strategy http).1.error =
      some "Plugin UUID not configured." ∧
    (c.send_merge_variables vars merge_strategy http).2 = [] := by
  unfold StandardTRMNLClient.send_image StandardTRMNLClient.send_merge_variables
  rw [h]
  simp [pyFalsyStr]

/-- Witness for C3 at a concrete handle-less hosted client. -/
theorem C3_hosted_push_requires_plugin_uuid_witness :
    ((StandardTRMNLClient.mk "dev-1" "key-1" "http://e" 30 none).send_image
        "http://img" none (fun _ => ⟨200, "application/json", []⟩)).2 =
      ([] : List HttpRequest) :=
  (C3_hosted_push_requires_plugin_uuid
    (StandardTRMNLClient.mk "dev-1" "key-1" "http://e" 30 none)
    "http://img" none [] "deep_merge"
    (fun _ => ⟨200, "application/json", []⟩) rfl).2.2.1

/-! ### C4 -/

/-- C4 counterexample: on a status-200 response without a JSON content type
the self-hosted client returns `success = true` (guarded body parse), but the
hosted client calls `resp.json()` unguarded, the `ContentTypeError` is caught
by its exception handler, and the result is `success = false` — so the claim
fails for the hosted variant. -/
theorem C4_counterexample :
    ((StandardTRMNLClient.mk "d" "k" "http://e" 30 (some "uuid-1")).send_image
        "http://img" none (fun _ => ⟨200, "text/html", []⟩)).1.success = false ∧
    ((BYOSClient.mk "d" "k" "http://e" 30).send_image "http://img" none
        (fun _ => ⟨200, "text/html", []⟩)).1.success = true := by
  exact ⟨rfl, rfl⟩

/-- C4 amended: the missing-JSON-content-type tolerance holds for the
self-hosted variants only, and only on the two statuses they treat as
success.  For every BYOS or Terminus push whose issued request got a status
200 or 201 response — whatever its content type — the result is
`success = true`; a 2xx status outside that pair (e.g. 204) yields
`success = false` even for the self-hosted variants; and for the hosted
variant, a response without a JSON content type makes the push fail even on
status 200. -/
theorem C4_missing_json_content_type (c : BYOSClient)
    (sc : StandardTRMNLClient) (url : String) (rr : Option Int)
    (vars : List (String × String)) (ms : String)
    (http : HttpRequest → HttpResponse)
    (h2xx : ∀ req ∈ (c.send_image url rr http).2,
      (http req).status = 200 ∨ (http req).status = 201)
    (h2xx' : ∀ req ∈ (c.send_merge_variables vars ms http).2,
      (http req).status = 200 ∨ (http req).status = 201)
    (huuid : pyFalsyStr sc.plugin_uuid = false)
    (hct : ∀ req ∈ (sc.send_image url rr http).2,
      (http req).content_type ≠ "application/json") :
    (c.send_image url rr http).1.success = true ∧
    (TerminusClient.send_image c url rr http).1.success = true ∧
    (c.send_merge_variables vars ms http).1.success = true ∧
    (sc.send_image url rr http).1.success = false ∧
    (∀ c' : BYOSClient,
      (c'.send_image url rr (fun _ => ⟨204, "text/html", []⟩)).1.success =
        false) := by
  rw [byos_send_image_trace] at h2xx
  rw [byos_send_merge_variables_trace] at h2xx'
  rw [standard_send_image_trace sc url rr http huuid] at hct
  have hst := h2xx (byosDisplayReq c) (by simp)
  have hst' := h2xx' (byosDisplayReq c) (by simp)
  have hctr := hct (standardPluginReq sc) (by simp)
  refine ⟨?_, ?_, ?_, ?_, fun c' => rfl⟩
  · unfold BYOSClient.send_image
    dsimp only
    split
    · rfl
    · rename_i hcond; exact absurd hst hcond
  · unfold TerminusClient.send_image BYOSClient.send_image
    dsimp only
    split
    · rfl
    · rename_i hcond; exact absurd hst hcond
  · unfold BYOSClient.send_merge_variables
    dsimp only
    split
    · rfl
    · rename_i hcond; exact absurd hst' hcond
  · unfold StandardTRMNLClient.send_image
    rw [huuid]
    simp only [Bool.false_eq_true, if_false]
    have hj : respJson (http (standardPluginReq sc)) =
        .error ("Attempt to decode JSON with unexpected mimetype: " ++
          (http (standardPluginReq sc)).content_type) := by
      unfold respJson
      rw [if_neg hctr]
    unfold standardPluginReq at hj
    rw [hj]

/-- Witness for C4's amended theorem: concrete clients, a 200 `text/html`
response. -/
theorem C4_missing_json_content_type_witness :
    ((BYOSClient.mk "dw" "kw" "http://w" 30).send_image "http://img" none
        (fun _ => ⟨200, "text/html", []⟩)).1.success = true :=
  (C4_missing_json_content_type (BYOSClient.mk "dw" "kw" "http://w" 30)
    (StandardTRMNLClient.mk "dw" "kw" "http://w" 30 (some "uw")) "http://img"
    none [] "deep_merge" (fun _ => ⟨200, "text/html", []⟩)
    (by intro req _; left; rfl) (by intro req _; left; rfl) rfl
    (by
      intro req _
      show ("text/html" : String) ≠ "application/json"
      decide)).1

/-! ### C5 -/

/-- C5 counterexample: the hosted push operation issues a POST whose header
list is empty — it carries neither the `Access-Token` nor the `ID` header, so
not every hosted-variant request carries the two headers. -/
theorem C5_counterexample :
    (((StandardTRMNLClient.mk "d" "k" "http://e" 30 (some "uuid-1")).send_image
        "http://img" none
        (fun _ => ⟨200, "application/json", []⟩)).2.map HttpRequest.headers)
      = [[]] ∧
    (((StandardTRMNLClient.mk "d" "k" "http://e" 30 (some "uuid-1")).send_image
        "http://img" none
        (fun _ => ⟨200, "application/json", []⟩)).2.map HttpRequest.method)
      = ["POST"] := by
  exact ⟨rfl, rfl⟩

/-- C5 amended: the hosted variant's `test_connection` and
`get_device_status` GET the fixed current-screen endpoint carrying both the
`ID` and `Access-Token` headers, while the push operations POST to the
per-plugin-handle endpoint with an empty header list (the plugin UUID in the
URL is the only credential). -/
theorem C5_hosted_request_shapes (c : StandardTRMNLClient) (url : String)
    (rr : Option Int) (vars : List (String × String)) (ms : String)
    (http : HttpRequest → HttpResponse)
    (huuid : pyFalsyStr c.plugin_uuid = false) :
    (c.test_connection http).2 =
      [{ method := "GET", url := c.api_endpoint ++ "/api/current_screen"
         headers := [("ID", c.device_id), ("Access-Token", c.api_key)] }] ∧
    (c.get_device_status http).2 =
      [{ method := "GET", url := c.api_endpoint ++ "/api/current_screen"
         headers := [("ID", c.device_id), ("Access-Token", c.api_key)] }] ∧
    (c.send_image url rr http).2 =
      [{ method := "POST"
         url := c.api_endpoint ++ "/api/custom_plugins/" ++ c.plugin_uuid.getD ""
         headers := [] }] ∧
    (c.send_merge_variables vars ms http).2 =
      [{ method := "POST"
         url := c.api_endpoint ++ "/api/custom_plugins/" ++ c.plugin_uuid.getD ""
         headers := [] }] :=
  ⟨standard_test_connection_trace c http,
   standard_get_device_status_trace c http,
   standard_send_image_trace c url rr http huuid,
   standard_send_merge_variables_trace c vars ms http huuid⟩

/-- Witness for C5's amended theorem at a concrete hosted client. -/
theorem C5_hosted_request_shapes_witness :
    ((StandardTRMNLClient.mk "dx" "kx" "http://x" 30 (some "ux")).test_connection
        (fun _ => ⟨200, "application/json", []⟩)).2 =
      [{ method := "GET", url := "http://x" ++ "/api/current_screen"
         headers := [("ID", "dx"), ("Access-Token", "kx")] }] :=
  (C5_hosted_request_shapes
    (StandardTRMNLClient.mk "dx" "kx" "http://x" 30 (some "ux"))
    "http://img" none [] "deep_merge"
    (fun _ => ⟨200, "application/json", []⟩) (by decide)).1

/-! ### More limiter helper lemmas (quota not consumed by pruning) -/

lemma pruneTimes_sublist (now : Int) (ts : List Int) :
    (pruneTimes now ts).Sublist ts :=
  List.filter_sublist ts

lemma can_make_request_snd_sublist (rl : RateLimiter) (now : Int) :
    (rl.can_make_request now).2.request_times.Sublist rl.request_times := by
  cases he : rl.enabled with
  | false =>
      unfold RateLimiter.can_make_request
      rw [he]
      simp
  | true =>
      rw [can_make_request_snd now he]
      exact pruneTimes_sublist now rl.request_times

lemma can_make_request_removes_only_stale (rl : RateLimiter) (now x : Int)
    (hx : x ∈ rl.request_times)
    (hout : x ∉ (rl.can_make_request now).2.request_times) :
    x ≤ now - 3600 := by
  cases he : rl.enabled with
  | false =>
      unfold RateLimiter.can_make_request at hout
      rw [he] at hout
      simp at hout
      exact absurd hx hout
  | true =>
      rw [can_make_request_snd now he] at hout
      by_contra hgt
      push_neg at hgt
      exact hout (List.mem_filter.mpr ⟨hx, decide_eq_true hgt⟩)

lemma get_remaining_requests_fst (rl : RateLimiter) (now : Int)
    (he : rl.enabled = true) :
    (rl.get_remaining_requests now).1 =
      max 0 (rl.requests_per_hour -
        ((pruneTimes now rl.request_times).length : Int)) := by
  unfold RateLimiter.get_remaining_requests
  rw [he]
  simp

/-- Pruning during the admission check never decreases the remaining quota
reported later: dropped entries were outside the window anyway. -/
lemma can_make_request_remaining_mono (rl : RateLimiter) (now t : Int) :
    (rl.get_remaining_requests t).1 ≤
      ((rl.can_make_request now).2.get_remaining_requests t).1 := by
  cases he : rl.enabled with
  | false =>
      have : (rl.can_make_request now).2 = rl := by
        unfold RateLimiter.can_make_request
        rw [he]
        simp
      rw [this]
  | true =>
      rw [can_make_request_snd now he]
      have he' : ({ rl with request_times := pruneTimes now rl.request_times } :
          RateLimiter).enabled = true := he
      rw [get_remaining_requests_fst _ t he, get_remaining_requests_fst _ t he']
      have hsub : (pruneTimes t (pruneTimes now rl.request_times)).Sublist
          (pruneTimes t rl.request_times) :=
        List.Sublist.filter _ (pruneTimes_sublist now rl.request_times)
      have hlen := hsub.length_le
      simp only []
      omega

/-! ### Dispatcher characterization lemmas -/

lemma handle_send_image_of_failure (cfg : ClientConfig)
    (device_id image_url : String) (rr : Option Int) (rate_limit : Int)
    (ert : Bool) (mgr : RateLimiterManager)
    (http : HttpRequest → HttpResponse) (nA nB nC nD nE nF : Int)
    (client : TRMNLClient)
    (hid : cfg.device_id = some device_id)
    (hadm : ((mgr.get_limiter device_id rate_limit ert).1.can_make_request
      nA).1 = true)
    (hcl : TRMNLClientFactory.create_client (cfg.implementation_type.getD "")
      device_id (cfg.api_key.getD "") cfg.api_endpoint 30 = some client)
    (hs : (client.send_image image_url rr http).1.success = false) :
    handle_send_image (some cfg) device_id image_url rr rate_limit ert mgr
        http nA nB nC nD nE nF =
      ⟨.errSendFailed (client.send_image image_url rr http).1.error,
       (mgr.get_limiter device_id rate_limit ert).2.store device_id
         ((mgr.get_limiter device_id rate_limit ert).1.can_make_request nA).2,
       (client.send_image image_url rr http).2, false⟩ := by
  unfold handle_send_image
  dsimp only
  rw [hid, hadm, hcl]
  dsimp only
  rw [hs]
  simp

lemma handle_send_image_of_success (cfg : ClientConfig)
    (device_id image_url : String) (rr : Option Int) (rate_limit : Int)
    (ert : Bool) (mgr : RateLimiterManager)
    (http : HttpRequest → HttpResponse) (nA nB nC nD nE nF : Int)
    (client : TRMNLClient)
    (hid : cfg.device_id = some device_id)
    (hadm : ((mgr.get_limiter device_id rate_limit ert).1.can_make_request
      nA).1 = true)
    (hcl : TRMNLClientFactory.create_client (cfg.implementation_type.getD "")
      device_id (cfg.api_key.getD "") cfg.api_endpoint 30 = some client)
    (hs : (client.send_image image_url rr http).1.success = true) :
    handle_send_image (some cfg) device_id image_url rr rate_limit ert mgr
        http nA nB nC nD nE nF =
      ⟨.ok,
       (mgr.get_limiter device_id rate_limit ert).2.store device_id
         ((((mgr.get_limiter device_id rate_limit ert).1.can_make_request
             nA).2.record_request nD nE).log_status nF),
       (client.send_image image_url rr http).2, true⟩ := by
  unfold handle_send_image
  dsimp only
  rw [hid, hadm, hcl]
  dsimp only
  rw [hs]
  simp

lemma handle_send_merge_variables_of_failure (cfg : ClientConfig)
    (device_id : String) (vars : List (String × String)) (ms : String)
    (rate_limit : Int) (ert : Bool) (mgr : RateLimiterManager)
    (http : HttpRequest → HttpResponse) (nA nB nC nD nE nF : Int)
    (client : TRMNLClient)
    (hid : cfg.device_id = some device_id)
    (hadm : ((mgr.get_limiter device_id rate_limit ert).1.can_make_request
      nA).1 = true)
    (hcl : TRMNLClientFactory.create_client (cfg.implementation_type.getD "")
      device_id (cfg.api_key.getD "") cfg.api_endpoint 30 = some client)
    (hs : (client.send_merge_variables vars ms http).1.success = false) :
    handle_send_merge_variables (some cfg) device_id vars ms rate_limit ert
        mgr http nA nB nC nD nE nF =
      ⟨.errSendFailed (client.send_merge_variables vars ms http).1.error,
       (mgr.get_limiter device_id rate_limit ert).2.store device_id
         ((mgr.get_limiter device_id rate_limit ert).1.can_make_request nA).2,
       (client.send_merge_variables vars ms http).2, false⟩ := by
  unfold handle_send_merge_variables
  dsimp only
  rw [hid, hadm, hcl]
  dsimp only
  rw [hs]
  simp

lemma handle_send_merge_variables_of_success (cfg : ClientConfig)
    (device_id : String) (vars : List (String × String)) (ms : String)
    (rate_limit : Int) (ert : Bool) (mgr : RateLimiterManager)
    (http : HttpRequest → HttpResponse) (nA nB nC nD nE nF : Int)
    (client : TRMNLClient)
    (hid : cfg.device_id = some device_id)
    (hadm : ((mgr.get_limiter device_id rate_limit ert).1.can_make_request
      nA).1 = true)
    (hcl : TRMNLClientFactory.create_client (cfg.implementation_type.getD "")
      device_id (cfg.api_key.getD "") cfg.api_endpoint 30 = some client)
    (hs : (client.send_merge_variables vars ms http).1.success = true) :
    handle_send_merge_variables (some cfg) device_id vars ms rate_limit ert
        mgr http nA nB nC nD nE nF =
      ⟨.ok,
       (mgr.get_limiter device_id rate_limit ert).2.store device_id
         ((((mgr.get_limiter device_id rate_limit ert).1.can_make_request
             nA).2.record_request nD nE).log_status nF),
       (client.send_merge_variables vars ms http).2, true⟩ := by
  unfold handle_send_merge_variables
  dsimp only
  rw [hid, hadm, hcl]
  dsimp only
  rw [hs]
  simp

/-- Storing through the aliased limiter reference: when the key is present,
a store followed by a lookup yields the stored limiter. -/
lemma find_store_of_found (m : RateLimiterManager) (id : String)
    (rl : RateLimiter) (h : (m.find id).isSome) :
    (m.store id rl).find id = some rl := by
  obtain ⟨l⟩ := m
  simp only [RateLimiterManager.find, RateLimiterManager.store] at h ⊢
  induction l with
  | nil => simp at h
  | cons x xs ih =>
      by_cases hx : x.1 = id
      · rw [List.map_cons, if_pos hx, List.find?_cons_of_pos _ (by simp [hx])]
        rfl
      · rw [List.map_cons, if_neg hx,
          List.find?_cons_of_neg _ (by simp [hx])]
        rw [List.find?_cons_of_neg _ (by simp [hx])] at h
        exact ih h

/-! ### C9 -/

/-- C9: the factory maps exactly the three known tags to the corresponding
variant (a pure construction, no HTTP request issued), returns `none` on
every other tag, and when the dispatcher's factory call yields `none` the
invocation ends in the configuration error `errNoClient` with an empty HTTP
trace and nothing recorded. -/
theorem C9_factory_tag_mapping :
    (∀ (d k e : String) (t : Int),
      TRMNLClientFactory.create_client IMPL_STANDARD d k e t =
        some (.standard ⟨d, k, e, t, none⟩) ∧
      TRMNLClientFactory.create_client IMPL_TERMINUS d k e t =
        some (.terminus ⟨d, k, e, t⟩) ∧
      TRMNLClientFactory.create_client IMPL_GENERIC_BYOS d k e t =
        some (.generic ⟨d, k, e, t⟩)) ∧
    (∀ (tag d k e : String) (t : Int), tag ≠ IMPL_STANDARD →
      tag ≠ IMPL_TERMINUS → tag ≠ IMPL_GENERIC_BYOS →
      TRMNLClientFactory.create_client tag d k e t = none) ∧
    (∀ (cfg : ClientConfig) (device_id image_url : String) (rr : Option Int)
        (rate_limit : Int) (ert : Bool) (mgr : RateLimiterManager)
        (http : HttpRequest → HttpResponse) (nA nB nC nD nE nF : Int),
      TRMNLClientFactory.create_client (cfg.implementation_type.getD "")
          device_id (cfg.api_key.getD "") cfg.api_endpoint 30 = none →
      cfg.device_id = some device_id →
      ((mgr.get_limiter device_id rate_limit ert).1.can_make_request nA).1 =
        true →
      (handle_send_image (some cfg) device_id image_url rr rate_limit ert mgr
          http nA nB nC nD nE nF).outcome = .errNoClient ∧
      (handle_send_image (some cfg) device_id image_url rr rate_limit ert mgr
          http nA nB nC nD nE nF).trace = [] ∧
      (handle_send_image (some cfg) device_id image_url rr rate_limit ert mgr
          http nA nB nC nD nE nF).recorded = false) := by
  refine ⟨fun d k e t => ⟨rfl, rfl, rfl⟩, ?_, ?_⟩
  · intro tag d k e t h1 h2 h3
    unfold TRMNLClientFactory.create_client
    rw [if_neg h1, if_neg h2, if_neg h3]
  · intro cfg device_id image_url rr rate_limit ert mgr http nA nB nC nD nE
      nF hnone hid hadm
    unfold handle_send_image
    dsimp only
    rw [hid, hadm, hnone]
    simp

/-- Witness for C9: an unknown tag `"bogus"` makes the dispatcher fail with
the configuration error, issuing no HTTP request. -/
theorem C9_factory_tag_mapping_witness :
    (handle_send_image
        (some ⟨some "d9", some "bogus", some "k9", "http://f"⟩) "d9"
        "http://img" none 12 true ⟨[]⟩
        (fun _ => ⟨200, "application/json", []⟩) 0 0 0 0 0 0).outcome =
      .errNoClient :=
  (C9_factory_tag_mapping.2.2 ⟨some "d9", some "bogus", some "k9", "http://f"⟩
    "d9" "http://img" none 12 true ⟨[]⟩
    (fun _ => ⟨200, "application/json", []⟩) 0 0 0 0 0 0 rfl rfl rfl).1

/-! ### C1 -/

/-- Config, manager and HTTP environment for the C1 counterexample: a
generic-BYOS device whose limiter history holds one stale entry (time -7200),
with the server answering HTTP 500. -/
def c1cfg : ClientConfig :=
  { device_id := some "dev", implementation_type := some "generic_byos"
    api_key := some "key", api_endpoint := "http://e" }

def c1staleLimiter : RateLimiter :=
  { device_id := "dev", requests_per_hour := 12, enabled := true
    request_times := [-7200], last_request_time := none }

def c1mgr : RateLimiterManager := ⟨[("dev", c1staleLimiter)]⟩

def c1http : HttpRequest → HttpResponse :=
  fun _ => { status := 500, content_type := "application/json", jsonBody := [] }

/-- C1 counterexample: on a failed send (HTTP 500) the dispatcher raises the
structured error and records nothing — but the limiter's request history is
NOT unchanged: the admission check already pruned the stale entry, so the
stored history went from `[-7200]` to `[]` during the failed invocation. -/
theorem C1_counterexample :
    (handle_send_image (some c1cfg) "dev" "http://img" none 12 true c1mgr
        c1http 0 0 0 0 0 0).outcome = .errSendFailed (some "HTTP 500") ∧
    (handle_send_image (some c1cfg) "dev" "http://img" none 12 true c1mgr
        c1http 0 0 0 0 0 0).recorded = false ∧
    c1mgr.find "dev" = some c1staleLimiter ∧
    c1staleLimiter.request_times = [-7200] ∧
    (handle_send_image (some c1cfg) "dev" "http://img" none 12 true c1mgr
        c1http 0 0 0 0 0 0).manager.find "dev" =
      some { device_id := "dev", requests_per_hour := 12, enabled := true
             request_times := [], last_request_time := none } ∧
    (handle_send_image (some c1cfg) "dev" "http://img" none 12 true c1mgr
        c1http 0 0 0 0 0 0).manager ≠ c1mgr := by
  refine ⟨rfl, rfl, rfl, rfl, rfl, by decide⟩

/-- C1 amended: in every dispatcher invocation (image or merge-variables)
that reaches the client operation, `record_request` is called if and only if
the operation's result has `success = true`.  On `success = false` the
dispatcher raises the structured send-failure error carrying the operation's
error, and the stored limiter history is the admission-pruned original: no
timestamp was appended, every removed entry was already more than one hour
old at the admission check, and the remaining quota at any time is at least
what it was before — a failed send never consumes quota (though the stale
entries pruned by the admission check are gone). -/
theorem C1_record_iff_success (cfg : ClientConfig)
    (device_id image_url : String) (rr : Option Int)
    (vars : List (String × String)) (ms : String) (rate_limit : Int)
    (ert : Bool) (mgr : RateLimiterManager)
    (http : HttpRequest → HttpResponse) (nA nB nC nD nE nF : Int)
    (client : TRMNLClient)
    (hid : cfg.device_id = some device_id)
    (hadm : ((mgr.get_limiter device_id rate_limit ert).1.can_make_request
      nA).1 = true)
    (hcl : TRMNLClientFactory.create_client (cfg.implementation_type.getD "")
      device_id (cfg.api_key.getD "") cfg.api_endpoint 30 = some client) :
    ((handle_send_image (some cfg) device_id image_url rr rate_limit ert mgr
        http nA nB nC nD nE nF).recorded =
      (client.send_image image_url rr http).1.success) ∧
    ((client.send_image image_url rr http).1.success = false →
      (handle_send_image (some cfg) device_id image_url rr rate_limit ert mgr
          http nA nB nC nD nE nF).outcome =
        .errSendFailed (client.send_image image_url rr http).1.error ∧
      (handle_send_image (some cfg) device_id image_url rr rate_limit ert mgr
          http nA nB nC nD nE nF).manager.find device_id =
        some ((mgr.get_limiter device_id rate_limit ert).1.can_make_request
          nA).2 ∧
      ((mgr.get_limiter device_id rate_limit ert).1.can_make_request
        nA).2.request_times.Sublist
          (mgr.get_limiter device_id rate_limit ert).1.request_times ∧
      (∀ x ∈ (mgr.get_limiter device_id rate_limit ert).1.request_times,
        x ∉ ((mgr.get_limiter device_id rate_limit ert).1.can_make_request
          nA).2.request_times → x ≤ nA - 3600) ∧
      (∀ t : Int,
        ((mgr.get_limiter device_id rate_limit ert).1.get_remaining_requests
          t).1 ≤
        (((mgr.get_limiter device_id rate_limit ert).1.can_make_request
          nA).2.get_remaining_requests t).1)) ∧
    ((handle_send_merge_variables (some cfg) device_id vars ms rate_limit ert
        mgr http nA nB nC nD nE nF).recorded =
      (client.send_merge_variables vars ms http).1.success) ∧
    ((client.send_merge_variables vars ms http).1.success = false →
      (handle_send_merge_variables (some cfg) device_id vars ms rate_limit
          ert mgr http nA nB nC nD nE nF).outcome =
        .errSendFailed (client.send_merge_variables vars ms http).1.error ∧
      (handle_send_merge_variables (some cfg) device_id vars ms rate_limit
          ert mgr http nA nB nC nD nE nF).manager.find device_id =
        some ((mgr.get_limiter device_id rate_limit ert).1.can_make_request
          nA).2) := by
  have hfound : (((mgr.get_limiter device_id rate_limit ert).2).find
      device_id).isSome := by
    rw [find_get_limiter_snd]
    rfl
  refine ⟨?_, ?_, ?_, ?_⟩
  · cases hs : (client.send_image image_url rr http).1.success with
    | true =>
        rw [handle_send_image_of_success cfg device_id image_url rr
          rate_limit ert mgr http nA nB nC nD nE nF client hid hadm hcl hs]
    | false =>
        rw [handle_send_image_of_failure cfg device_id image_url rr
          rate_limit ert mgr http nA nB nC nD nE nF client hid hadm hcl hs]
  · intro hs
    rw [handle_send_image_of_failure cfg device_id image_url rr rate_limit
      ert mgr http nA nB nC nD nE nF client hid hadm hcl hs]
    refine ⟨rfl, find_store_of_found _ _ _ hfound, ?_, ?_, ?_⟩
    · exact can_make_request_snd_sublist _ nA
    · exact fun x hx hout =>
        can_make_request_removes_only_stale _ nA x hx hout
    · exact fun t => can_make_request_remaining_mono _ nA t
  · cases hs : (client.send_merge_variables vars ms http).1.success with
    | true =>
        rw [handle_send_merge_variables_of_success cfg device_id vars ms
          rate_limit ert mgr http nA nB nC nD nE nF client hid hadm hcl hs]
    | false =>
        rw [handle_send_merge_variables_of_failure cfg device_id vars ms
          rate_limit ert mgr http nA nB nC nD nE nF client hid hadm hcl hs]
  · intro hs
    rw [handle_send_merge_variables_of_failure cfg device_id vars ms
      rate_limit ert mgr http nA nB nC nD nE nF client hid hadm hcl hs]
    exact ⟨rfl, find_store_of_found _ _ _ hfound⟩

/-- Witness for C1's amended theorem: a generic-BYOS dispatch against a
500-answering server records nothing (`recorded = success = false`). -/
theorem C1_record_iff_success_witness :
    (handle_send_image
        (some ⟨some "dw1", some "generic_byos", some "kw1", "http://w1"⟩)
        "dw1" "http://img" none 12 true ⟨[]⟩
        (fun _ => ⟨500, "application/json", []⟩) 0 0 0 0 0 0).recorded =
      ((TRMNLClient.generic ⟨"dw1", "kw1", "http://w1", 30⟩).send_image
        "http://img" none (fun _ => ⟨500, "application/json", []⟩)).1.success :=
  (C1_record_iff_success
    ⟨some "dw1", some "generic_byos", some "kw1", "http://w1"⟩ "dw1"
    "http://img" none [] "deep_merge" 12 true ⟨[]⟩
    (fun _ => ⟨500, "application/json", []⟩) 0 0 0 0 0 0
    (TRMNLClient.generic ⟨"dw1", "kw1", "http://w1", 30⟩) rfl rfl rfl).1

end TRMNL
